import Mathlib

/-!
A shallow embedding of `sipsimple/session.py` (SIP session controller).

Pure data is modelled directly; stateful Python methods become functions
`SessionState → Except PyError (SessionState × List Action × List Notification)`
where `Action` records the calls made on the external collaborators (the
`Invitation` dialog, the media engine, timers, recorder, ringtone) in program
order and `Notification` records the notifications posted on the notification
center, in order.  A raised (and uncaught) Python exception is modelled as
`Except.error`.
-/

namespace SipSession

/-- Python exceptions that the embedded code can raise. -/
inductive PyError where
  | runtimeError (msg : String)
  | attributeError
  | unboundLocalError
deriving DecidableEq

/-- Python attribute access `x.attr` on a value that may be `None` / unset:
returns the value or raises `AttributeError`. -/
def pyGet {α : Type} (x : Option α) : Except PyError α :=
  match x with
  | some v => Except.ok v
  | none => Except.error PyError.attributeError

/-- Python list item assignment `l[i] = x` with Python index semantics:
a negative index counts from the end.  (Out-of-range assignment raises
`IndexError` in Python; it never occurs on the inputs considered here and is
modelled as a no-op by `List.set`.) -/
def pySet {α : Type} (l : List α) (i : Int) (x : α) : List α :=
  if 0 ≤ i then l.set i.toNat x
  else l.set (l.length - (-i).toNat) x

/-- Python list item read `l[i]` with Python index semantics (negative index
counts from the end); `none` for an out-of-range index. -/
def pyGetElem {α : Type} (l : List α) (i : Int) : Option α :=
  if 0 ≤ i then l[i.toNat]?
  else l[l.length - (-i).toNat]?

/-- One `m=` media line of an SDP body (`SDPMedia` in `sipsimple.core`):
media type, port, transport, formats and attributes. -/
structure SDPMedia where
  media : String
  port : Nat
  transport : String
  formats : List String
  attributes : List String
deriving DecidableEq

/-- An SDP session body (`SDPSession` in `sipsimple.core`), with the `o=` line
fields (`user`, `id`, `version`, `net_type`, `address_type`, `address`) that
`_handle_SCInvitationChangedState` compares on a re-INVITE. -/
structure SDPSession where
  address : String
  id : Nat
  version : Nat
  user : String
  net_type : String
  address_type : String
  connection : Option String
  start_time : Nat
  stop_time : Nat
  media : List SDPMedia
deriving DecidableEq

/-- The SDP answer object being built by `Session._accept_continue`: its media
list starts as `len(remote_sdp.media)*[None]` and is filled in, so the entries
are `Option SDPMedia`. -/
structure AnswerSDP where
  address : String
  connection : Option String
  start_time : Nat
  stop_time : Nat
  media : List (Option SDPMedia)
deriving DecidableEq

/-- `SDPMedia(remote_media.media, 0, remote_media.transport,
formats=remote_media.formats, attributes=remote_media.attributes)`: the
rejected mirror of a remote media line built in `_accept_continue`. -/
def mkRejectedMedia (m : SDPMedia) : SDPMedia :=
  { media := m.media, port := 0, transport := m.transport,
    formats := m.formats, attributes := m.attributes }

/-- The slice of an `AudioTransport` object the session code reads:
`is_active` and `direction`. -/
structure AudioTransportModel where
  isActive : Bool
  direction : String
deriving DecidableEq

/-- The slice of a `RecordingWaveFile` the session code reads: `is_active`,
`is_paused` and `file_name`. -/
structure RecorderModel where
  isActive : Bool
  isPaused : Bool
  fileName : String
deriving DecidableEq

/-- The slice of the `Invitation` dialog the session code reads: its state and
the SDP getters `get_active_local_sdp`, `get_active_remote_sdp`,
`get_offered_remote_sdp`. -/
structure DialogModel where
  state : String
  activeLocalSdp : SDPSession
  activeRemoteSdp : SDPSession
  offeredRemoteSdp : SDPSession
deriving DecidableEq

/-- The mutable fields of a `Session` object (`Session.__init__`).  Wall-clock
timestamps are abstracted to set/unset flags. -/
structure SessionState where
  state : String
  onHoldByLocal : Bool
  onHoldByRemote : Bool
  startTimeSet : Bool
  stopTimeSet : Bool
  remoteUserAgent : Option String
  direction : Option String
  audioTransport : Option AudioTransportModel
  inv : Option DialogModel
  audioSdpIndex : Int
  queue : List String
  ringtone : Option Unit
  sdpnegFailureReason : Option String
  noAudioTimer : Option Unit
  audioRec : Option RecorderModel
  rtpLocalAddress : String
deriving DecidableEq

/-- A notification posted on the notification center (sender = the session). -/
inductive Notification where
  | changedState (prev next : String)
  | willEnd
  | didFail (originator : String) (code : Nat) (reason : Option String)
  | didEnd (originator : String)
  | gotHoldRequest (originator : String)
  | gotUnholdRequest (originator : String)
  | gotStreamProposal (hasAudio : Bool)
  | stoppedRecordingAudio (fileName : String)
deriving DecidableEq

/-- A call made on an external collaborator (dialog, media engine, timer,
recorder, ringtone, media-transport initializer), recorded in program order. -/
inductive Action where
  | invDisconnect (code : Option Nat)
  | respondToReinvite (code : Nat)
  | setOfferedLocalSdp (sdp : SDPSession)
  | setOfferedLocalAnswer (sdp : AnswerSDP)
  | sendReinvite
  | acceptInvite
  | engineConnectAudio
  | engineDisconnectAudio
  | audioTransportStop
  | timerCancel
  | recorderPause
  | recorderResume
  | recorderStart
  | ringtoneStart
  | mediaInitializerStart
deriving DecidableEq

/-- The external media environment: `audio_transport.get_local_media(is_offer,
direction)` as an oracle function, and the `AudioTransport` object the external
constructor returns. -/
structure MediaEnv where
  glm : Bool → Option String → SDPMedia
  newTransport : AudioTransportModel

/-- `Session._change_state`: set the state; on an actual change, manage the
ringtone and post `SCSessionChangedState`. -/
def changeState (s : SessionState) (newState : String) :
    SessionState × List Action × List Notification :=
  let prev := s.state
  let s := { s with state := newState }
  if prev = newState then (s, [], [])
  else
    let acts := if newState = "INCOMING" ∧ s.ringtone.isSome then [Action.ringtoneStart] else []
    let s := if (prev = "INCOMING" ∨ prev = "CALLING") ∧ s.ringtone.isSome then
      { s with ringtone := none } else s
    (s, acts, [Notification.changedState prev newState])

/-- `Session._stop_audio` (callers guarantee `audio_transport` is not `None`):
if active, disconnect from the engine, stop the transport, cancel the no-audio
timer and stop any recording; in all cases drop the transport handle.
(The `audio_transport_mapping` bookkeeping lives in the manager and is not part
of the session state.) -/
def stopAudio (s : SessionState) (a : AudioTransportModel) :
    SessionState × List Action × List Notification :=
  if a.isActive then
    let acts := [Action.engineDisconnectAudio, Action.audioTransportStop]
    let (s, acts) :=
      match s.noAudioTimer with
      | some _ => ({ s with noAudioTimer := none }, acts ++ [Action.timerCancel])
      | none => (s, acts)
    let (s, notifs) :=
      match s.audioRec with
      | some rec => ({ s with audioRec := none },
          [Notification.stoppedRecordingAudio rec.fileName])
      | none => (s, [])
    ({ s with audioTransport := none }, acts, notifs)
  else
    ({ s with audioTransport := none }, [], [])

/-- `Session._stop_media`: stop the audio stream if one exists. -/
def stopMedia (s : SessionState) : SessionState × List Action × List Notification :=
  match s.audioTransport with
  | some a => stopAudio s a
  | none => (s, [], [])

/-- `Session._do_fail`: stop media, clear the dialog handle, transition to
TERMINATED and post `SCSessionDidFail` then `SCSessionDidEnd`, originator
`"local"`.  (The manager's `inv_mapping` removal is manager bookkeeping.) -/
def doFail (s : SessionState) (reason : String) :
    SessionState × List Action × List Notification :=
  let (s1, a1, n1) := stopMedia s
  let s2 := { s1 with inv := none }
  let (s3, a2, n2) := changeState s2 "TERMINATED"
  (s3, a1 ++ a2,
    n1 ++ n2 ++ [Notification.didFail "local" 0 (some reason), Notification.didEnd "local"])

/-- `Session._make_next_sdp`: take the dialog's active local SDP, increment its
version, and if an audio transport exists replace the audio media line with
`get_local_media(is_offer, direction)` where the direction is derived from the
transport's current direction and the hold flag (`"send" in direction` is a
Python substring test). -/
def makeNextSdp (activeLocal : SDPSession) (audioTransport : Option AudioTransportModel)
    (audioSdpIndex : Int) (env : MediaEnv) (isOffer : Bool) (onHold : Bool) : SDPSession :=
  let sdp := { activeLocal with version := activeLocal.version + 1 }
  match audioTransport with
  | none => sdp
  | some a =>
    let direction : Option String :=
      if isOffer then
        if List.IsInfix "send".data a.direction.data then
          some (if onHold then "sendonly" else "sendrecv")
        else
          some (if onHold then "inactive" else "recvonly")
      else none
    { sdp with media := pySet sdp.media audioSdpIndex (env.glm isOffer direction) }

/-- `Session._check_recording_hold`: pause the recorder while on hold, resume
or start it when hold clears.  (`RecordingWaveFile.start` is modelled as
succeeding; the source swallows a failure by dropping the recorder.) -/
def checkRecordingHold (s : SessionState) : SessionState × List Action :=
  match s.audioRec with
  | none => (s, [])
  | some rec =>
    if s.onHoldByLocal ∨ s.onHoldByRemote then
      if rec.isActive ∧ ¬rec.isPaused then
        ({ s with audioRec := some { rec with isPaused := true } }, [Action.recorderPause])
      else (s, [])
    else
      if rec.isActive then
        if rec.isPaused then
          ({ s with audioRec := some { rec with isPaused := false } }, [Action.recorderResume])
        else (s, [])
      else
        ({ s with audioRec := some { rec with isActive := true } }, [Action.recorderStart])

/-- The `while self._queue:` loop of `Session._process_queue`.  Pops commands;
a command whose effect is already current is skipped (`continue`); the first
effective command disconnects or connects the audio transport on the engine,
builds the next SDP and breaks.  Returns the remaining queue, the new
`on_hold_by_local` flag, the engine actions, and `local_sdp` — which stays
unbound (`none`) when every command was skipped. -/
def processLoop (env : MediaEnv) (inv? : Option DialogModel)
    (audioTransport : Option AudioTransportModel) (audioSdpIndex : Int) :
    List String → Bool → Except PyError (List String × Bool × List Action × Option SDPSession)
  | [], onHold => pure ([], onHold, [], none)
  | cmd :: rest, onHold =>
    if cmd = "hold" then
      if onHold then processLoop env inv? audioTransport audioSdpIndex rest onHold
      else do
        let acts := match audioTransport with
          | some a => if a.isActive then [Action.engineDisconnectAudio] else []
          | none => []
        let inv ← pyGet inv?
        pure (rest, true, acts,
          some (makeNextSdp inv.activeLocalSdp audioTransport audioSdpIndex env true true))
    else if cmd = "unhold" then
      if !onHold then processLoop env inv? audioTransport audioSdpIndex rest onHold
      else do
        let acts := match audioTransport with
          | some a => if a.isActive then [Action.engineConnectAudio] else []
          | none => []
        let inv ← pyGet inv?
        pure (rest, false, acts,
          some (makeNextSdp inv.activeLocalSdp audioTransport audioSdpIndex env true false))
    else
      processLoop env inv? audioTransport audioSdpIndex rest onHold

/-- `Session._process_queue`: run the command loop, then
`self._inv.set_offered_local_sdp(local_sdp)` — which raises
`UnboundLocalError` when the loop bound no `local_sdp` — and
`send_reinvite`; finally, if the local hold flag actually flipped, re-evaluate
recording and post exactly one `SCSessionGotHoldRequest` or
`SCSessionGotUnholdRequest` with originator `"local"`. -/
def processQueue (s : SessionState) (env : MediaEnv) :
    Except PyError (SessionState × List Action × List Notification) := do
  let wasOnHold := s.onHoldByLocal
  let (rest, newOnHold, engActs, sdp?) ←
    processLoop env s.inv s.audioTransport s.audioSdpIndex s.queue s.onHoldByLocal
  let localSdp ← match sdp? with
    | some sdp => pure sdp
    | none => Except.error PyError.unboundLocalError
  let _ ← pyGet s.inv
  let s1 := { s with queue := rest, onHoldByLocal := newOnHold }
  let acts := engActs ++ [Action.setOfferedLocalSdp localSdp, Action.sendReinvite]
  if ¬wasOnHold ∧ s1.onHoldByLocal then
    let (s2, recActs) := checkRecordingHold s1
    pure (s2, acts ++ recActs, [Notification.gotHoldRequest "local"])
  else if wasOnHold ∧ ¬s1.onHoldByLocal then
    let (s2, recActs) := checkRecordingHold s1
    pure (s2, acts ++ recActs, [Notification.gotUnholdRequest "local"])
  else
    pure (s1, acts, [])

/-- `Session.hold`: only callable in ESTABLISHED; append `"hold"` to the queue
and process the queue if its length just became 1. -/
def hold (s : SessionState) (env : MediaEnv) :
    Except PyError (SessionState × List Action × List Notification) :=
  if s.state ≠ "ESTABLISHED" then Except.error (PyError.runtimeError "Session is not active")
  else
    let s := { s with queue := s.queue ++ ["hold"] }
    if s.queue.length = 1 then processQueue s env
    else pure (s, [], [])

/-- `Session.unhold`: only callable in ESTABLISHED; append `"unhold"` to the
queue and process the queue if its length just became 1. -/
def unhold (s : SessionState) (env : MediaEnv) :
    Except PyError (SessionState × List Action × List Notification) :=
  if s.state ≠ "ESTABLISHED" then Except.error (PyError.runtimeError "Session is not active")
  else
    let s := { s with queue := s.queue ++ ["unhold"] }
    if s.queue.length = 1 then processQueue s env
    else pure (s, [], [])

/-- `Session.terminate`: a no-op in NULL/TERMINATING/TERMINATED; otherwise
disconnect the dialog unless it is already DISCONNECTING, transition to
TERMINATING and post `SCSessionWillEnd`. -/
def terminate (s : SessionState) :
    Except PyError (SessionState × List Action × List Notification) := do
  if s.state = "NULL" ∨ s.state = "TERMINATING" ∨ s.state = "TERMINATED" then
    pure (s, [], [])
  else do
    let inv ← pyGet s.inv
    let acts := if inv.state ≠ "DISCONNECTING" then [Action.invDisconnect none] else []
    let (s1, a1, n1) := changeState s "TERMINATING"
    pure (s1, acts ++ a1, n1 ++ [Notification.willEnd])

/-- The `for sdp_index, sdp_media in enumerate(remote_sdp.media)` loop in
`Session.accept`: the index of the last audio line when audio was requested,
`-1` otherwise. -/
def findAudioIndex (media : List SDPMedia) (audio : Bool) : Int :=
  media.enum.foldl
    (fun acc p => if p.2.media = "audio" ∧ audio then Int.ofNat p.1 else acc) (-1)

/-- `Session.accept`: only callable in INCOMING; locate the audio line in the
offered remote SDP; with audio neither requested nor matched, raise — before
any state change, notification or media-initializer construction.  On success
record the audio index, start the media-transport initializer and transition to
ACCEPTING. -/
def accept (s : SessionState) (audio : Bool) :
    Except PyError (SessionState × List Action × List Notification) := do
  if s.state ≠ "INCOMING" then
    Except.error (PyError.runtimeError "This method can only be called while in the INCOMING state")
  else do
    let inv ← pyGet s.inv
    let remoteSdp := inv.offeredRemoteSdp
    let audioSdpIndex := findAudioIndex remoteSdp.media audio
    let audioRtp ←
      if audio then
        if audioSdpIndex = -1 then
          Except.error (PyError.runtimeError
            "Use of audio requested, but audio was not proposed by remote party")
        else pure true
      else pure false
    if !audioRtp then
      Except.error (PyError.runtimeError
        "None of the streams proposed by the remote party is accepted")
    else
      let s := { s with audioSdpIndex := audioSdpIndex }
      let (s1, a1, n1) := changeState s "ACCEPTING"
      pure (s1, [Action.mediaInitializerStart] ++ a1, n1)

/-- The rejected-mirror assignment performed for one index of
`sdp_media_todo` in `Session._accept_continue`:
`local_sdp.media[j] = SDPMedia(remote.media[j].media, 0, ...)`. -/
def rejectStep (remoteMedia : List SDPMedia) (acc : List (Option SDPMedia)) (j : Int) :
    List (Option SDPMedia) :=
  match pyGetElem remoteMedia j with
  | some rm => pySet acc j (some (mkRejectedMedia rm))
  | none => acc

/-- `Session._accept_continue` (with `msrp_chat = None`, as at both call
sites): if no longer ACCEPTING, return silently; otherwise build the answer
SDP — local address, copied remote start/stop times, media list
`len(remote.media)*[None]`, the audio index filled from
`get_local_media(is_offer=False)` via `_init_audio`, every other index a
rejected mirror with port 0 — then `set_offered_local_sdp` and
`accept_invite`. -/
def acceptContinue (s : SessionState) (audioRtp : Bool) (env : MediaEnv) :
    Except PyError (SessionState × List Action × List Notification) := do
  if s.state ≠ "ACCEPTING" then pure (s, [], [])
  else do
    let inv ← pyGet s.inv
    let remoteSdp := inv.offeredRemoteSdp
    let n := remoteSdp.media.length
    let media0 : List (Option SDPMedia) := List.replicate n none
    let todo0 : List Int := (List.range n).map Int.ofNat
    let (s1, media1, todo1) :=
      if audioRtp then
        ({ s with audioTransport := some env.newTransport },
         pySet media0 s.audioSdpIndex (some (env.glm false none)),
         todo0.erase s.audioSdpIndex)
      else (s, media0, todo0)
    let mediaFinal := todo1.foldl (rejectStep remoteSdp.media) media1
    let ans : AnswerSDP := {
      address := s.rtpLocalAddress,
      connection := some s.rtpLocalAddress,
      start_time := remoteSdp.start_time,
      stop_time := remoteSdp.stop_time,
      media := mediaFinal }
    pure (s1, [Action.setOfferedLocalAnswer ans, Action.acceptInvite], [])

/-- The headers the DISCONNECTED handler reads from the dialog event data. -/
structure Headers where
  server : Option String
  userAgent : Option String
  warning : Option String
deriving DecidableEq

/-- The dialog-event data for a DISCONNECTED transition
(`SCInvitationChangedState` with `data.state == "DISCONNECTED"`); `none`
models an absent attribute (`hasattr` false). -/
structure DisconnectData where
  prev_state : String
  code : Option Nat
  reason : Option String
  headers : Option Headers
  method : Option String
deriving DecidableEq

/-- The `SCSessionDidFail` block of the DISCONNECTED branch of
`SessionManager._handle_SCInvitationChangedState`: posted only when the prior
session state was not TERMINATING and the dialog's previous state was not
CONFIRMED.  The source line `failure_data.reason == "No ACK received"` in the
408/CONNECTING branch is a comparison that reads the never-assigned `reason`
attribute and therefore raises `AttributeError`. -/
def failNotifs (prevSessionState : String) (sdpnegReason : Option String)
    (data : DisconnectData) (originator : String) : Except PyError (List Notification) :=
  if prevSessionState ≠ "TERMINATING" ∧ data.prev_state ≠ "CONFIRMED" then
    match data.code with
    | some c =>
      if data.prev_state = "CONNECTING" ∧ c = 408 then
        Except.error PyError.attributeError
      else
        match data.headers with
        | some h =>
          match h.warning with
          | some w => do
            let r ← pyGet data.reason
            pure [Notification.didFail originator c (some (r ++ " (" ++ w ++ ")"))]
          | none => do
            let r ← pyGet data.reason
            pure [Notification.didFail originator c (some r)]
        | none => do
          let r ← pyGet data.reason
          pure [Notification.didFail originator c (some r)]
    | none =>
      if data.method = some "CANCEL" then
        pure [Notification.didFail originator 0 (some "Request cancelled")]
      else
        pure [Notification.didFail originator 0 sdpnegReason]
  else
    pure []

/-- The bookkeeping prefix of the DISCONNECTED branch: set the stop time if a
start time exists, then fill `remote_user_agent` from the `Server` /
`User-Agent` headers when still unset. -/
def disconnectedBookkeeping (s : SessionState) (data : DisconnectData) : SessionState :=
  let s := if s.startTimeSet then { s with stopTimeSet := true } else s
  match data.headers with
  | some h =>
    let s := if s.remoteUserAgent = none then { s with remoteUserAgent := h.server } else s
    if s.remoteUserAgent = none then { s with remoteUserAgent := h.userAgent } else s
  | none => s

/-- The DISCONNECTED branch of
`SessionManager._handle_SCInvitationChangedState`: set the stop time, update
the remote user agent from the headers, stop media, clear the dialog handle,
transition to TERMINATED, compute the originator from the dialog's previous
state, post `SCSessionDidFail` per `failNotifs`, then post
`SCSessionDidEnd`.  (`del self.inv_mapping[inv]` is manager bookkeeping.) -/
def handleDisconnected (s : SessionState) (data : DisconnectData) :
    Except PyError (SessionState × List Action × List Notification) := do
  let prevSessionState := s.state
  let s := disconnectedBookkeeping s data
  let (s, a1, n1) := stopMedia s
  let s := { s with inv := none }
  let (s, a2, n2) := changeState s "TERMINATED"
  let originator := if data.prev_state = "DISCONNECTING" then "local" else "remote"
  let nf ← failNotifs prevSessionState s.sdpnegFailureReason data originator
  pure (s, a1 ++ a2, n1 ++ n2 ++ nf ++ [Notification.didEnd originator])

/-- `[media.media for media in sdp.media if media.port != 0]`: the media types
of the lines with a nonzero port. -/
def nonzeroMediaTypes (sdp : SDPSession) : List String :=
  (sdp.media.filter (fun m => m.port ≠ 0)).map SDPMedia.media

/-- The `for attr in ["user", "id", "net_type", "address_type", "address"]`
comparison of the REINVITED branch: does any `o=` line field differ? -/
def oLineDiffers (proposed current : SDPSession) : Bool :=
  proposed.user ≠ current.user ∨ proposed.id ≠ current.id
    ∨ proposed.net_type ≠ current.net_type
    ∨ proposed.address_type ≠ current.address_type
    ∨ proposed.address ≠ current.address

/-- The REINVITED branch of
`SessionManager._handle_SCInvitationChangedState`: compare the proposed remote
SDP version against the current one; echo + 200 / 488 on an equal version;
on version + 1, 488 on an `o=` line change, otherwise 180 + PROPOSED +
`SCSessionGotStreamProposal` when a new nonzero-port audio line appears, else
answer with `_make_next_sdp(False)` + 200; 488 on any other delta. -/
def handleReinvited (s : SessionState) (env : MediaEnv) :
    Except PyError (SessionState × List Action × List Notification) := do
  let inv ← pyGet s.inv
  let current := inv.activeRemoteSdp
  let proposed := inv.offeredRemoteSdp
  if proposed.version = current.version then
    if current ≠ proposed then
      pure (s, [Action.respondToReinvite 488], [])
    else
      pure (s, [Action.setOfferedLocalSdp inv.activeLocalSdp, Action.respondToReinvite 200], [])
  else if proposed.version = current.version + 1 then
    if oLineDiffers proposed current then
      pure (s, [Action.respondToReinvite 488], [])
    else
      let currentRemoteMedia := nonzeroMediaTypes current
      let proposedRemoteMedia := nonzeroMediaTypes proposed
      if "audio" ∉ currentRemoteMedia ∧ "audio" ∈ proposedRemoteMedia then
        let (s1, a1, n1) := changeState s "PROPOSED"
        pure (s1, [Action.respondToReinvite 180] ++ a1,
          n1 ++ [Notification.gotStreamProposal true])
      else
        pure (s, [Action.setOfferedLocalSdp
            (makeNextSdp inv.activeLocalSdp s.audioTransport s.audioSdpIndex env false false),
          Action.respondToReinvite 200], [])
  else
    pure (s, [Action.respondToReinvite 488], [])

/-!
`MediaTransportInitializer`: transports are identified by `Nat` handles.  The
notification-center observer registrations are part of the state: an event is
delivered to a handler only while the matching `(event name, sender)` observer
registration exists, which is how a completed initializer never sees further
events.
-/

/-- An invocation of one of the two continuations of a
`MediaTransportInitializer`. -/
inductive InitOutcome where
  | success
  | failure (reason : String)
deriving DecidableEq

/-- The state of a `MediaTransportInitializer`: the constructor arguments, the
`waiting_for` list, the live observer registrations, and the log of
continuation invocations. -/
structure InitializerState where
  audioRtp : Nat
  msrpChat : Option Nat
  waitingFor : List Nat
  observed : List (String × Nat)
  fired : List InitOutcome
deriving DecidableEq

/-- `MediaTransportInitializer.__init__`: register observers for the audio RTP
transport and trigger its initialization; when an MSRP chat transport is given,
the source registers its observers on the `rtp` loop variable (not on
`msrp_chat`). -/
def mkInitializer (audioRtp : Nat) (msrpChat : Option Nat) : InitializerState :=
  let st : InitializerState :=
    { audioRtp := audioRtp, msrpChat := msrpChat, waitingFor := [audioRtp],
      observed := [("SCRTPTransportDidInitialize", audioRtp), ("SCRTPTransportDidFail", audioRtp)],
      fired := [] }
  match msrpChat with
  | none => st
  | some m =>
    { st with
      waitingFor := st.waitingFor ++ [m],
      observed := st.observed
        ++ [("MSRPChatDidInitialize", audioRtp), ("MSRPChatDidFail", audioRtp)] }

/-- `MediaTransportInitializer._remove_observer`: drop the object from
`waiting_for` and unregister its two observers. -/
def removeObserver (st : InitializerState) (obj : Nat) : InitializerState :=
  let st := { st with waitingFor := st.waitingFor.erase obj }
  if st.msrpChat = some obj then
    let obs := (st.observed.erase ("MSRPChatDidInitialize", obj)).erase ("MSRPChatDidFail", obj)
    { st with observed := obs }
  else
    let obs := (st.observed.erase ("SCRTPTransportDidInitialize", obj)).erase
      ("SCRTPTransportDidFail", obj)
    { st with observed := obs }

/-- `MediaTransportInitializer._check_done`: when `waiting_for` is empty,
invoke the success continuation. -/
def checkDone (st : InitializerState) : InitializerState :=
  if st.waitingFor.length = 0 then { st with fired := st.fired ++ [InitOutcome.success] }
  else st

/-- The `for obj in self.waiting_for: self._remove_observer(obj)` loop of
`MediaTransportInitializer._fail`, with CPython semantics of removing from the
list being iterated: position `idx` is read from the shrinking list until it
falls off the end.  The fuel is the initial list length, an upper bound on the
number of iterations. -/
def failRemoveLoop : Nat → Nat → InitializerState → InitializerState
  | 0, _, st => st
  | fuel + 1, idx, st =>
    match st.waitingFor[idx]? with
    | none => st
    | some obj => failRemoveLoop fuel (idx + 1) (removeObserver st obj)

/-- `MediaTransportInitializer._fail`: unsubscribe the remaining transports,
end the MSRP chat if any, prefix the reason with the failing transport, and
invoke the failure continuation. -/
def failInit (st : InitializerState) (sender : Nat) (reason : String) : InitializerState :=
  let st := failRemoveLoop st.waitingFor.length 0 st
  let reason :=
    if sender = st.audioRtp then "Failed to initialize audio RTP transport: " ++ reason
    else if st.msrpChat = some sender then "Failed to initialize MSRP chat transport: " ++ reason
    else reason
  { st with fired := st.fired ++ [InitOutcome.failure reason] }

/-- An event the notification center may deliver to the initializer. -/
inductive InitEvent where
  | rtpDidInitialize (sender : Nat)
  | rtpDidFail (sender : Nat) (reason : String)
  | msrpDidInitialize (sender : Nat)
  | msrpDidFail (sender : Nat) (reason : String)
deriving DecidableEq

/-- One event delivery: the handler runs only while the matching observer
registration is live; each handler first returns if `waiting_for` is already
empty (`_handle_SCRTPTransportDidInitialize` and friends). -/
def stepInit (st : InitializerState) : InitEvent → InitializerState
  | InitEvent.rtpDidInitialize t =>
    if ("SCRTPTransportDidInitialize", t) ∈ st.observed then
      if st.waitingFor.length = 0 then st
      else checkDone (removeObserver st t)
    else st
  | InitEvent.rtpDidFail t r =>
    if ("SCRTPTransportDidFail", t) ∈ st.observed then
      if st.waitingFor.length = 0 then st
      else failInit st t r
    else st
  | InitEvent.msrpDidInitialize t =>
    if ("MSRPChatDidInitialize", t) ∈ st.observed then
      if st.waitingFor.length = 0 then st
      else checkDone (removeObserver st t)
    else st
  | InitEvent.msrpDidFail t r =>
    if ("MSRPChatDidFail", t) ∈ st.observed then
      if st.waitingFor.length = 0 then st
      else failInit st t r
    else st

/-- Deliver a sequence of events to the initializer. -/
def runInit (st : InitializerState) (evs : List InitEvent) : InitializerState :=
  evs.foldl stepInit st

/-- An event the initializer's audio RTP transport is the sender of. -/
def eventForRtp (e : InitEvent) (a : Nat) : Prop :=
  e = InitEvent.rtpDidInitialize a ∨ ∃ r, e = InitEvent.rtpDidFail a r

instance (e : InitEvent) (a : Nat) : Decidable (eventForRtp e a) := by
  unfold eventForRtp
  cases e <;> simp <;> infer_instance

/-- A concrete audio media line. -/
def audioMediaLine : SDPMedia :=
  { media := "audio", port := 16000, transport := "RTP/AVP", formats := ["0", "8"],
    attributes := ["rtpmap"] }

/-- A concrete video media line. -/
def videoMediaLine : SDPMedia :=
  { media := "video", port := 16002, transport := "RTP/AVP", formats := ["31"],
    attributes := [] }

/-- A concrete SDP with one audio line. -/
def baseSdp : SDPSession :=
  { address := "1.2.3.4", id := 100, version := 7, user := "-", net_type := "IN",
    address_type := "IP4", connection := some "1.2.3.4", start_time := 0, stop_time := 0,
    media := [audioMediaLine] }

/-- A concrete confirmed dialog. -/
def baseDialog : DialogModel :=
  { state := "CONFIRMED", activeLocalSdp := baseSdp, activeRemoteSdp := baseSdp,
    offeredRemoteSdp := baseSdp }

/-- A concrete session in the ESTABLISHED state with no audio transport. -/
def estSession : SessionState :=
  { state := "ESTABLISHED", onHoldByLocal := false, onHoldByRemote := false,
    startTimeSet := true, stopTimeSet := false, remoteUserAgent := some "UA",
    direction := some "incoming", audioTransport := none, inv := some baseDialog,
    audioSdpIndex := 0, queue := [], ringtone := none, sdpnegFailureReason := none,
    noAudioTimer := none, audioRec := none, rtpLocalAddress := "10.0.0.1" }

/-- A concrete session in the NULL state. -/
def nullSession : SessionState :=
  { state := "NULL", onHoldByLocal := false, onHoldByRemote := false,
    startTimeSet := false, stopTimeSet := false, remoteUserAgent := none,
    direction := none, audioTransport := none, inv := none,
    audioSdpIndex := -1, queue := [], ringtone := none, sdpnegFailureReason := none,
    noAudioTimer := none, audioRec := none, rtpLocalAddress := "10.0.0.1" }

/-- A concrete session in the INCOMING state whose remote party offered audio. -/
def incomingSession : SessionState :=
  { nullSession with
    state := "INCOMING", inv := some baseDialog, direction := some "incoming" }

/-- A concrete media environment. -/
def env0 : MediaEnv :=
  { glm := fun isOffer dir =>
      { media := "audio", port := 20000, transport := "RTP/AVP", formats := ["0"],
        attributes := (if isOffer then ["offer"] else ["answer"]) ++ dir.toList },
    newTransport := { isActive := false, direction := "sendrecv" } }

/-- Is a notification a `SCSessionDidFail`? -/
def isDidFail : Notification → Bool
  | Notification.didFail _ _ _ => true
  | _ => false

/-- Is a notification a `SCSessionDidEnd`? -/
def isDidEnd : Notification → Bool
  | Notification.didEnd _ => true
  | _ => false

/-- Dialog-event data for a remote BYE received while the dialog was
CONFIRMED. -/
def byeData : DisconnectData :=
  { prev_state := "CONFIRMED", code := none, reason := none, headers := none,
    method := some "BYE" }

/-- The session state `handleDisconnected` leaves behind for
`estSession` / `byeData`. -/
def estSessionAfterBye : SessionState :=
  { estSession with state := "TERMINATED", stopTimeSet := true, inv := none }

/-- A concrete session in the CALLING state (outbound call not yet
confirmed). -/
def callingSession : SessionState :=
  { estSession with state := "CALLING", startTimeSet := true }

/-- Dialog-event data for a 408 timeout while the dialog was CONNECTING
(no ACK received). -/
def ackTimeoutData : DisconnectData :=
  { prev_state := "CONNECTING", code := some 408, reason := some "Request Timeout",
    headers := none, method := none }

/-- Dialog-event data for a 486 rejection carrying a Warning header. -/
def warningData : DisconnectData :=
  { prev_state := "EARLY", code := some 486, reason := some "Busy Here",
    headers := some { server := none, userAgent := none, warning := some "Debug info" },
    method := none }

/-- A concrete active audio transport. -/
def activeAudioTransport : AudioTransportModel := { isActive := true, direction := "sendrecv" }

/-- A concrete ESTABLISHED session with an active audio stream. -/
def estAudioSession : SessionState :=
  { estSession with audioTransport := some activeAudioTransport }

/-- The session state after the first `hold()` completed. -/
def estAudioSessionHeld : SessionState :=
  { estAudioSession with onHoldByLocal := true }

/-- The proposed remote SDP of the C4 counterexample: version bumped by one,
same `o=` line, audio line unchanged, plus a brand-new nonzero-port video
line. -/
def proposedSdpNewVideo : SDPSession :=
  { baseSdp with version := 8, media := [audioMediaLine, videoMediaLine] }

/-- The dialog of the C4 counterexample. -/
def reinviteDialog : DialogModel :=
  { state := "CONFIRMED", activeLocalSdp := baseSdp, activeRemoteSdp := baseSdp,
    offeredRemoteSdp := proposedSdpNewVideo }

/-- The C4 counterexample session. -/
def estReinviteSession : SessionState := { estSession with inv := some reinviteDialog }

/-- The current remote SDP of the C4 witness: no media at all. -/
def emptyMediaSdp : SDPSession := { baseSdp with media := [] }

/-- The proposed remote SDP of the C4 witness: a new audio line. -/
def proposedAudioSdp : SDPSession := { baseSdp with version := 8, media := [audioMediaLine] }

/-- The dialog of the C4 witness. -/
def proposeAudioDialog : DialogModel :=
  { state := "CONFIRMED", activeLocalSdp := baseSdp, activeRemoteSdp := emptyMediaSdp,
    offeredRemoteSdp := proposedAudioSdp }

/-- The C4 witness session. -/
def proposalSession : SessionState := { estSession with inv := some proposeAudioDialog }

/-- The dialog after the hold re-INVITE round completed: the active local SDP
is now at version 8. -/
def confirmedDialog2 : DialogModel :=
  { baseDialog with activeLocalSdp := { baseSdp with version := 8 } }

/-- A concrete ESTABLISHED session holding all three resources: an active
audio transport, an armed no-audio timer and an active recorder. -/
def fullResourceSession : SessionState :=
  { estSession with
    audioTransport := some activeAudioTransport,
    noAudioTimer := some (),
    audioRec := some { isActive := true, isPaused := false, fileName := "call.wav" } }

/-- A concrete remote offer with a video line at index 0 and an audio line at
index 1. -/
def twoMediaSdp : SDPSession := { baseSdp with media := [videoMediaLine, audioMediaLine] }

/-- The dialog of the C7 witness. -/
def acceptDialog : DialogModel := { baseDialog with offeredRemoteSdp := twoMediaSdp }

/-- A concrete session in ACCEPTING with the audio line matched at index 1. -/
def acceptingSession : SessionState :=
  { estSession with state := "ACCEPTING", audioSdpIndex := 1, inv := some acceptDialog }

/-- A completed initializer: `waiting_for` is drained, every observer
registration is gone, and exactly one continuation has been invoked. -/
def initDone (st : InitializerState) : Prop :=
  st.waitingFor = [] ∧ st.observed = [] ∧ st.fired.length = 1

/-- With `audio=False` the index-search loop of `Session.accept` never fires. -/
theorem findAudioIndex_false (media : List SDPMedia) : findAudioIndex media false = -1 := by
  unfold findAudioIndex
  generalize media.enum = l
  induction l with
  | nil => rfl
  | cons p t ih => simpa using ih

/-- C10: `accept(audio=False)` on a session in the INCOMING state always raises
`RuntimeError` ("no stream accepted"), whatever the remote party offered, and
returns before any state change, notification or media-initializer start. -/
theorem claim10_accept_no_stream (s : SessionState) (d : DialogModel)
    (hstate : s.state = "INCOMING") (hinv : s.inv = some d) :
    accept s false = Except.error (PyError.runtimeError
      "None of the streams proposed by the remote party is accepted") := by
  simp [accept, hstate, hinv, pyGet, findAudioIndex_false, bind, Except.bind,
    pure, Except.pure]

/-- C10 witness: the concrete incoming session. -/
theorem claim10_witness :
    accept incomingSession false = Except.error (PyError.runtimeError
      "None of the streams proposed by the remote party is accepted") :=
  claim10_accept_no_stream incomingSession baseDialog rfl rfl

/-- C8: `terminate()` in NULL, TERMINATING or TERMINATED is a no-op; in any
other state it disconnects the dialog unless the dialog is already
DISCONNECTING, transitions to TERMINATING and posts exactly
`SCSessionChangedState` then `SCSessionWillEnd`; a second `terminate()` on the
resulting session does nothing, so `SCSessionWillEnd` is posted at most once
along the user-terminate path. -/
theorem claim8_terminate (s : SessionState) (d : DialogModel) :
    ((s.state = "NULL" ∨ s.state = "TERMINATING" ∨ s.state = "TERMINATED") →
      terminate s = Except.ok (s, [], []))
    ∧ (¬(s.state = "NULL" ∨ s.state = "TERMINATING" ∨ s.state = "TERMINATED") →
        s.inv = some d →
        ∃ s1, terminate s = Except.ok (s1,
            if d.state ≠ "DISCONNECTING" then [Action.invDisconnect none] else [],
            [Notification.changedState s.state "TERMINATING", Notification.willEnd])
          ∧ s1.state = "TERMINATING" ∧ s1.inv = s.inv
          ∧ s1.audioTransport = s.audioTransport ∧ s1.queue = s.queue
          ∧ terminate s1 = Except.ok (s1, [], [])) := by
  constructor
  · intro h
    simp [terminate, h, pure, Except.pure]
  · intro h hinv
    push_neg at h
    obtain ⟨h1, h2, h3⟩ := h
    by_cases hc : (s.state = "INCOMING" ∨ s.state = "CALLING")
        ∧ (({ s with state := "TERMINATING" } : SessionState).ringtone).isSome
    · refine ⟨{ s with state := "TERMINATING", ringtone := none }, ?_, rfl, rfl, rfl, rfl, ?_⟩
      · simp [terminate, h1, h2, h3, hinv, pyGet, changeState, hc, bind, Except.bind,
          pure, Except.pure]
      · simp [terminate, pure, Except.pure]
    · refine ⟨{ s with state := "TERMINATING" }, ?_, rfl, rfl, rfl, rfl, ?_⟩
      · simp [terminate, h1, h2, h3, hinv, pyGet, changeState, hc, bind, Except.bind,
          pure, Except.pure]
      · simp [terminate, pure, Except.pure]

/-- C8 witness: a NULL session and a concrete ESTABLISHED session. -/
theorem claim8_witness :
    terminate nullSession = Except.ok (nullSession, [], [])
    ∧ ∃ s1, terminate estSession = Except.ok (s1,
          if baseDialog.state ≠ "DISCONNECTING" then [Action.invDisconnect none] else [],
          [Notification.changedState estSession.state "TERMINATING", Notification.willEnd])
        ∧ s1.state = "TERMINATING" ∧ s1.inv = estSession.inv
        ∧ s1.audioTransport = estSession.audioTransport ∧ s1.queue = estSession.queue
        ∧ terminate s1 = Except.ok (s1, [], []) :=
  ⟨(claim8_terminate nullSession baseDialog).1 (Or.inl rfl),
   (claim8_terminate estSession baseDialog).2 (by decide) rfl⟩

/-- `_change_state` always sets the requested state and leaves the dialog
handle, media resources and negotiation bookkeeping untouched. -/
theorem changeState_fields (s : SessionState) (ns : String) :
    (changeState s ns).1.state = ns ∧ (changeState s ns).1.inv = s.inv
    ∧ (changeState s ns).1.audioTransport = s.audioTransport
    ∧ (changeState s ns).1.noAudioTimer = s.noAudioTimer
    ∧ (changeState s ns).1.audioRec = s.audioRec
    ∧ (changeState s ns).1.sdpnegFailureReason = s.sdpnegFailureReason := by
  simp only [changeState]
  split_ifs <;> simp

/-- `_change_state` posts nothing but `SCSessionChangedState`. -/
theorem changeState_notifs (s : SessionState) (ns : String) :
    ∀ x ∈ (changeState s ns).2.2, isDidFail x = false ∧ isDidEnd x = false := by
  simp only [changeState]
  split_ifs <;> intro x hx <;> simp at hx <;> simp [hx, isDidFail, isDidEnd]

/-- `_stop_media` always leaves the transport handle cleared, touches no other
session bookkeeping, and posts nothing but `SCSessionStoppedRecordingAudio`. -/
theorem stopMedia_fields (s : SessionState) :
    (stopMedia s).1.audioTransport = none
    ∧ (stopMedia s).1.state = s.state ∧ (stopMedia s).1.inv = s.inv
    ∧ (stopMedia s).1.sdpnegFailureReason = s.sdpnegFailureReason
    ∧ (∀ x ∈ (stopMedia s).2.2, isDidFail x = false ∧ isDidEnd x = false) := by
  unfold stopMedia stopAudio
  rcases ha : s.audioTransport with _ | a
  · simp [ha]
  · simp only [ha]
    split_ifs
    · rcases ht : s.noAudioTimer with _ | t <;>
        rcases hr : s.audioRec with _ | rec <;>
          simp [ht, hr, isDidFail, isDidEnd]
    · simp

/-- The slice of `failNotifs` used by the DISCONNECTED handler: away from the
broken 408/CONNECTING branch and with a `reason` attribute accompanying any
`code`, it returns `[]` exactly when the prior session state was TERMINATING
or the dialog's previous state was CONFIRMED, and a single
`SCSessionDidFail` otherwise. -/
theorem failNotifs_spec (ps : String) (sr : Option String) (data : DisconnectData) (o : String)
    (hR : data.code.isSome → data.reason.isSome)
    (h408 : ¬(data.prev_state = "CONNECTING" ∧ data.code = some 408)) :
    ∃ c r, failNotifs ps sr data o =
      Except.ok (if ps = "TERMINATING" ∨ data.prev_state = "CONFIRMED" then []
        else [Notification.didFail o c r]) := by
  by_cases h1 : ps = "TERMINATING" ∨ data.prev_state = "CONFIRMED"
  · have h2 : ¬(ps ≠ "TERMINATING" ∧ data.prev_state ≠ "CONFIRMED") := by tauto
    exact ⟨0, none, by simp [failNotifs, h1, h2, pure, Except.pure]⟩
  · have h2 : ps ≠ "TERMINATING" ∧ data.prev_state ≠ "CONFIRMED" := by tauto
    rcases hc : data.code with _ | c
    · by_cases hm : data.method = some "CANCEL"
      · exact ⟨0, some "Request cancelled",
          by simp [failNotifs, h1, h2, hc, hm, pure, Except.pure]⟩
      · exact ⟨0, sr, by simp [failNotifs, h1, h2, hc, hm, pure, Except.pure]⟩
    · have hcr : ¬(data.prev_state = "CONNECTING" ∧ c = 408) := by
        intro hx
        exact h408 ⟨hx.1, by rw [hc, hx.2]⟩
      obtain ⟨rr, hrr⟩ := Option.isSome_iff_exists.mp (hR (by rw [hc]; rfl))
      rcases hh : data.headers with _ | h
      · exact ⟨c, some rr, by simp [failNotifs, h1, h2, hc, hcr, hh, hrr, pyGet,
          bind, Except.bind, pure, Except.pure]⟩
      · rcases hw : h.warning with _ | w
        · exact ⟨c, some rr, by simp [failNotifs, h1, h2, hc, hcr, hh, hw, hrr, pyGet,
            bind, Except.bind, pure, Except.pure]⟩
        · exact ⟨c, some (rr ++ " (" ++ w ++ ")"),
            by simp [failNotifs, h1, h2, hc, hcr, hh, hw, hrr, pyGet,
              bind, Except.bind, pure, Except.pure]⟩

/-- C1 (amended): when the dialog reports DISCONNECTED for a tracked session,
the handler transitions to TERMINATED, clears the dialog handle, and — after a
prefix containing neither — posts `SCSessionDidFail` immediately followed by
`SCSessionDidEnd`, with `SCSessionDidFail` suppressed if and only if the
session's prior state was TERMINATING **or** the dialog's previous state was
CONFIRMED (so a remote hang-up from CONFIRMED posts no `SCSessionDidFail`).
The hypotheses keep the run away from the 408/CONNECTING `AttributeError`
slip (claim C5) and give the event a `reason` alongside any `code`. -/
theorem claim1_disconnected_amended (s : SessionState) (data : DisconnectData)
    (hR : data.code.isSome → data.reason.isSome)
    (h408 : ¬(data.prev_state = "CONNECTING" ∧ data.code = some 408)) :
    ∃ s1 acts pre c r,
      handleDisconnected s data = Except.ok (s1, acts,
        pre ++ (if s.state = "TERMINATING" ∨ data.prev_state = "CONFIRMED" then []
          else [Notification.didFail
            (if data.prev_state = "DISCONNECTING" then "local" else "remote") c r])
        ++ [Notification.didEnd
            (if data.prev_state = "DISCONNECTING" then "local" else "remote")])
      ∧ (∀ x ∈ pre, isDidFail x = false ∧ isDidEnd x = false)
      ∧ s1.state = "TERMINATED" ∧ s1.inv = none := by
  rcases hsm : stopMedia (disconnectedBookkeeping s data) with ⟨sc, a1, n1⟩
  rcases hcs : changeState { sc with inv := none } "TERMINATED" with ⟨se, a2, n2⟩
  obtain ⟨c, r, hfn⟩ := failNotifs_spec s.state se.sdpnegFailureReason data
    (if data.prev_state = "DISCONNECTING" then "local" else "remote") hR h408
  refine ⟨se, a1 ++ a2, n1 ++ n2, c, r, ?_, ?_, ?_, ?_⟩
  · unfold handleDisconnected
    simp only [hsm, hcs, hfn, bind, Except.bind, pure, Except.pure, List.append_assoc]
  · intro x hx
    rcases List.mem_append.mp hx with hx | hx
    · have := (stopMedia_fields (disconnectedBookkeeping s data)).2.2.2.2
      rw [hsm] at this
      exact this x hx
    · have := changeState_notifs { sc with inv := none } "TERMINATED"
      rw [hcs] at this
      exact this x hx
  · have := (changeState_fields { sc with inv := none } "TERMINATED").1
    rw [hcs] at this
    exact this
  · have := (changeState_fields { sc with inv := none } "TERMINATED").2.1
    rw [hcs] at this
    exact this

/-- C1 counterexample: a session in ESTABLISHED whose dialog disconnects from
previous dialog state CONFIRMED (remote hang-up).  The handler posts only
`SCSessionChangedState` and `SCSessionDidEnd` — no `SCSessionDidFail` — so the
claim's "suppressed iff TERMINATING ∧ CONFIRMED" (which would require a
`SCSessionDidFail` here, the session not being in TERMINATING) is false on the
code. -/
theorem claim1_counterexample :
    handleDisconnected estSession byeData = Except.ok (estSessionAfterBye, [],
      [Notification.changedState "ESTABLISHED" "TERMINATED", Notification.didEnd "remote"])
    ∧ estSession.state = "ESTABLISHED"
    ∧ byeData.prev_state = "CONFIRMED"
    ∧ ([Notification.changedState "ESTABLISHED" "TERMINATED",
        Notification.didEnd "remote"]).any isDidFail = false := by
  refine ⟨?_, rfl, rfl, rfl⟩
  rfl

/-- C1 witness: the amended statement applied to the concrete remote
hang-up. -/
theorem claim1_witness :
    ∃ s1 acts pre c r,
      handleDisconnected estSession byeData = Except.ok (s1, acts,
        pre ++ (if estSession.state = "TERMINATING" ∨ byeData.prev_state = "CONFIRMED" then []
          else [Notification.didFail
            (if byeData.prev_state = "DISCONNECTING" then "local" else "remote") c r])
        ++ [Notification.didEnd
            (if byeData.prev_state = "DISCONNECTING" then "local" else "remote")])
      ∧ s1.state = "TERMINATED" ∧ s1.inv = none := by
  obtain ⟨s1, acts, pre, c, r, h1, _, h3, h4⟩ :=
    claim1_disconnected_amended estSession byeData (by decide) (by decide)
  exact ⟨s1, acts, pre, c, r, h1, h3, h4⟩

/-- C5: the claim's ordinary branches do hold — `SCSessionDidFail` carries the
event's code and its reason decorated with the Warning header — but in the
408/CONNECTING branch the source compares (`==`) instead of assigning (`=`)
`failure_data.reason`, reading a never-assigned attribute: the handler raises
`AttributeError` and no notification carries "No ACK received". -/
theorem claim5_no_ack_code_bug :
    handleDisconnected callingSession ackTimeoutData = Except.error PyError.attributeError
    ∧ handleDisconnected callingSession warningData = Except.ok
        ({ callingSession with state := "TERMINATED", stopTimeSet := true, inv := none }, [],
          [Notification.changedState "CALLING" "TERMINATED",
           Notification.didFail "remote" 486 (some "Busy Here (Debug info)"),
           Notification.didEnd "remote"]) := by
  exact ⟨rfl, rfl⟩

/-- C3: the first `hold()` from ESTABLISHED produces exactly one re-INVITE and
one `SCSessionGotHoldRequest`; but a second `hold()` issued while
`on_hold_by_local` is already set drains the queue through the skip
(`continue`) path and then falls through to
`self._inv.set_offered_local_sdp(local_sdp)` with `local_sdp` never assigned:
the call raises `UnboundLocalError` instead of skipping silently. -/
theorem claim3_double_hold_code_bug :
    hold estAudioSession env0 = Except.ok (estAudioSessionHeld,
      [Action.engineDisconnectAudio,
       Action.setOfferedLocalSdp
         (makeNextSdp baseSdp (some activeAudioTransport) 0 env0 true true),
       Action.sendReinvite],
      [Notification.gotHoldRequest "local"])
    ∧ hold estAudioSessionHeld env0 = Except.error PyError.unboundLocalError := by
  exact ⟨rfl, rfl⟩

/-- C4 (amended): the REINVITED acceptance policy, with the new-media trigger
corrected to what the code computes: among the media with nonzero port, a
proposal is raised (answer 180, PROPOSED, `SCSessionGotStreamProposal`) iff an
**audio** type appears in the proposed SDP while none appears in the current
one; any other nonzero-port media type newly appearing (e.g. video) is *not*
detected and the re-INVITE is answered 200 with `_make_next_sdp(False)`. -/
theorem claim4_reinvite_policy (s : SessionState) (d : DialogModel) (env : MediaEnv)
    (hinv : s.inv = some d) (hstate : s.state = "ESTABLISHED") :
    (d.offeredRemoteSdp.version = d.activeRemoteSdp.version →
      d.activeRemoteSdp = d.offeredRemoteSdp →
      handleReinvited s env = Except.ok (s,
        [Action.setOfferedLocalSdp d.activeLocalSdp, Action.respondToReinvite 200], []))
    ∧ (d.offeredRemoteSdp.version = d.activeRemoteSdp.version →
        d.activeRemoteSdp ≠ d.offeredRemoteSdp →
        handleReinvited s env = Except.ok (s, [Action.respondToReinvite 488], []))
    ∧ (d.offeredRemoteSdp.version = d.activeRemoteSdp.version + 1 →
        oLineDiffers d.offeredRemoteSdp d.activeRemoteSdp = true →
        handleReinvited s env = Except.ok (s, [Action.respondToReinvite 488], []))
    ∧ (d.offeredRemoteSdp.version = d.activeRemoteSdp.version + 1 →
        oLineDiffers d.offeredRemoteSdp d.activeRemoteSdp = false →
        "audio" ∉ nonzeroMediaTypes d.activeRemoteSdp →
        "audio" ∈ nonzeroMediaTypes d.offeredRemoteSdp →
        handleReinvited s env = Except.ok ({ s with state := "PROPOSED" },
          [Action.respondToReinvite 180],
          [Notification.changedState "ESTABLISHED" "PROPOSED",
           Notification.gotStreamProposal true]))
    ∧ (d.offeredRemoteSdp.version = d.activeRemoteSdp.version + 1 →
        oLineDiffers d.offeredRemoteSdp d.activeRemoteSdp = false →
        ¬("audio" ∉ nonzeroMediaTypes d.activeRemoteSdp
          ∧ "audio" ∈ nonzeroMediaTypes d.offeredRemoteSdp) →
        handleReinvited s env = Except.ok (s,
          [Action.setOfferedLocalSdp
            (makeNextSdp d.activeLocalSdp s.audioTransport s.audioSdpIndex env false false),
           Action.respondToReinvite 200], []))
    ∧ (d.offeredRemoteSdp.version ≠ d.activeRemoteSdp.version →
        d.offeredRemoteSdp.version ≠ d.activeRemoteSdp.version + 1 →
        handleReinvited s env = Except.ok (s, [Action.respondToReinvite 488], [])) := by
  refine ⟨?_, ?_, ?_, ?_, ?_, ?_⟩
  · intro hv he
    simp [handleReinvited, hinv, pyGet, hv, he, bind, Except.bind, pure, Except.pure]
  · intro hv he
    simp [handleReinvited, hinv, pyGet, hv, he, Ne.symm he, bind, Except.bind,
      pure, Except.pure]
  · intro hv ho
    have hv2 : d.offeredRemoteSdp.version ≠ d.activeRemoteSdp.version := by omega
    simp [handleReinvited, hinv, pyGet, hv, hv2, ho, bind, Except.bind, pure, Except.pure]
  · intro hv ho hc hp
    have hv2 : d.offeredRemoteSdp.version ≠ d.activeRemoteSdp.version := by omega
    simp [handleReinvited, hinv, pyGet, hv, hv2, ho, hc, hp, changeState, hstate,
      bind, Except.bind, pure, Except.pure]
  · intro hv ho hn
    have hv2 : d.offeredRemoteSdp.version ≠ d.activeRemoteSdp.version := by omega
    simp only [handleReinvited, hinv, pyGet, bind, Except.bind, pure, Except.pure]
    simp [hv, hv2, ho, hn, imp_iff_not_or.mp (not_and.mp hn)]
  · intro hv1 hv2
    simp [handleReinvited, hinv, pyGet, hv1, hv2, bind, Except.bind, pure, Except.pure]

/-- C4 counterexample: the proposed SDP contains a nonzero-port medium
("video") absent from the current SDP, and `v_p = v_c + 1` with an unchanged
`o=` line — the claim requires answer 180, a transition to PROPOSED and
`SCSessionGotStreamProposal`, but the code answers 200, keeps the state and
posts nothing. -/
theorem claim4_counterexample :
    handleReinvited estReinviteSession env0 = Except.ok (estReinviteSession,
      [Action.setOfferedLocalSdp { baseSdp with version := 8 },
       Action.respondToReinvite 200], [])
    ∧ (proposedSdpNewVideo.media.any
        (fun m => (m.port != 0) && !((nonzeroMediaTypes baseSdp).contains m.media))) = true
    ∧ proposedSdpNewVideo.version = baseSdp.version + 1
    ∧ oLineDiffers proposedSdpNewVideo baseSdp = false := by
  exact ⟨rfl, rfl, rfl, rfl⟩

/-- C4 witness: the amended policy applied to a concrete new-audio proposal
(branch 180/PROPOSED) and to the concrete identical-SDP echo (branch 200). -/
theorem claim4_witness :
    handleReinvited proposalSession env0 = Except.ok
      ({ proposalSession with state := "PROPOSED" }, [Action.respondToReinvite 180],
        [Notification.changedState "ESTABLISHED" "PROPOSED",
         Notification.gotStreamProposal true])
    ∧ handleReinvited estSession env0 = Except.ok (estSession,
        [Action.setOfferedLocalSdp baseSdp, Action.respondToReinvite 200], []) :=
  ⟨(claim4_reinvite_policy proposalSession proposeAudioDialog env0 rfl rfl).2.2.2.1
      rfl rfl (by decide) (by decide),
   (claim4_reinvite_policy estSession baseDialog env0 rfl rfl).1 rfl rfl⟩

/-- `_make_next_sdp` increments the SDP version by exactly 1 over the active
local SDP it starts from. -/
theorem makeNextSdp_version (a : SDPSession) (t : Option AudioTransportModel) (i : Int)
    (env : MediaEnv) (isOffer onHold : Bool) :
    (makeNextSdp a t i env isOffer onHold).version = a.version + 1 := by
  unfold makeNextSdp
  cases t <;> simp

/-- `_check_recording_hold` only touches the recorder: every other session
field is preserved. -/
theorem checkRecordingHold_fields (s : SessionState) :
    (checkRecordingHold s).1.onHoldByLocal = s.onHoldByLocal
    ∧ (checkRecordingHold s).1.state = s.state
    ∧ (checkRecordingHold s).1.queue = s.queue
    ∧ (checkRecordingHold s).1.inv = s.inv
    ∧ (checkRecordingHold s).1.audioTransport = s.audioTransport
    ∧ (checkRecordingHold s).1.audioSdpIndex = s.audioSdpIndex := by
  unfold checkRecordingHold
  rcases hr : s.audioRec with _ | rec
  · simp
  · rcases h1 : s.onHoldByLocal with _ | _ <;>
      rcases h2 : s.onHoldByRemote with _ | _ <;>
        rcases h3 : rec.isActive with _ | _ <;>
          rcases h4 : rec.isPaused with _ | _ <;>
            simp [h1, h2, h3, h4]

/-- `_check_recording_hold` makes recorder calls only. -/
theorem checkRecordingHold_acts (s : SessionState) :
    ∀ x ∈ (checkRecordingHold s).2,
      x = Action.recorderPause ∨ x = Action.recorderResume ∨ x = Action.recorderStart := by
  intro x hx
  unfold checkRecordingHold at hx
  rcases hr : s.audioRec with _ | rec
  · rw [hr] at hx
    simp at hx
  · rw [hr] at hx
    rcases h1 : s.onHoldByLocal with _ | _ <;>
      rcases h2 : s.onHoldByRemote with _ | _ <;>
        rcases h3 : rec.isActive with _ | _ <;>
          rcases h4 : rec.isPaused with _ | _ <;>
            simp_all

/-- `_process_queue` on a queue holding the single effective command `"hold"`:
engine-disconnect actions, exactly one `set_offered_local_sdp` of
`_make_next_sdp(True, True)` followed by exactly one `send_reinvite`, recorder
actions, and exactly the notification `SCSessionGotHoldRequest{local}`; the
local hold flag is set and the queue drained. -/
theorem processQueue_hold_spec (s : SessionState) (d : DialogModel) (env : MediaEnv)
    (hq : s.queue = ["hold"]) (hh : s.onHoldByLocal = false) (hinv : s.inv = some d) :
    ∃ s1 pre post,
      processQueue s env = Except.ok (s1,
        pre ++ [Action.setOfferedLocalSdp
            (makeNextSdp d.activeLocalSdp s.audioTransport s.audioSdpIndex env true true),
          Action.sendReinvite] ++ post,
        [Notification.gotHoldRequest "local"])
      ∧ s1.onHoldByLocal = true ∧ s1.state = s.state ∧ s1.queue = [] ∧ s1.inv = s.inv
      ∧ s1.audioTransport = s.audioTransport ∧ s1.audioSdpIndex = s.audioSdpIndex
      ∧ (∀ x ∈ pre, x = Action.engineDisconnectAudio)
      ∧ (∀ x ∈ post,
          x = Action.recorderPause ∨ x = Action.recorderResume ∨ x = Action.recorderStart) := by
  rcases hcr : checkRecordingHold { s with queue := [], onHoldByLocal := true } with ⟨s2, recActs⟩
  have hf := checkRecordingHold_fields { s with queue := [], onHoldByLocal := true }
  have hacts := checkRecordingHold_acts { s with queue := [], onHoldByLocal := true }
  rw [hcr] at hf hacts
  refine ⟨s2,
    (match s.audioTransport with
      | some a => if a.isActive then [Action.engineDisconnectAudio] else []
      | none => []),
    recActs, ?_, ?_, ?_, ?_, ?_, ?_, ?_, ?_, hacts⟩
  · unfold processQueue processLoop
    simp only [hq, hh, hinv, pyGet, bind, Except.bind, pure, Except.pure,
      reduceIte, reduceCtorEq]
    rcases ha : s.audioTransport with _ | a
    · simp only [ha, hinv] at hcr
      simp [hcr]
    · simp only [ha, hinv] at hcr
      rcases hact : a.isActive with _ | _ <;> simp [hcr, hact]
  · exact hf.1
  · exact hf.2.1
  · exact hf.2.2.1
  · exact hf.2.2.2.1
  · exact hf.2.2.2.2.1
  · exact hf.2.2.2.2.2
  · rcases ha : s.audioTransport with _ | a
    · simp
    · rcases hact : a.isActive with _ | _ <;> simp

/-- `_process_queue` on a queue holding the single effective command
`"unhold"`, symmetric to `processQueue_hold_spec`. -/
theorem processQueue_unhold_spec (s : SessionState) (d : DialogModel) (env : MediaEnv)
    (hq : s.queue = ["unhold"]) (hh : s.onHoldByLocal = true) (hinv : s.inv = some d) :
    ∃ s1 pre post,
      processQueue s env = Except.ok (s1,
        pre ++ [Action.setOfferedLocalSdp
            (makeNextSdp d.activeLocalSdp s.audioTransport s.audioSdpIndex env true false),
          Action.sendReinvite] ++ post,
        [Notification.gotUnholdRequest "local"])
      ∧ s1.onHoldByLocal = false ∧ s1.state = s.state ∧ s1.queue = [] ∧ s1.inv = s.inv
      ∧ s1.audioTransport = s.audioTransport ∧ s1.audioSdpIndex = s.audioSdpIndex
      ∧ (∀ x ∈ pre, x = Action.engineConnectAudio)
      ∧ (∀ x ∈ post,
          x = Action.recorderPause ∨ x = Action.recorderResume ∨ x = Action.recorderStart) := by
  rcases hcr : checkRecordingHold { s with queue := [], onHoldByLocal := false } with ⟨s2, recActs⟩
  have hf := checkRecordingHold_fields { s with queue := [], onHoldByLocal := false }
  have hacts := checkRecordingHold_acts { s with queue := [], onHoldByLocal := false }
  rw [hcr] at hf hacts
  refine ⟨s2,
    (match s.audioTransport with
      | some a => if a.isActive then [Action.engineConnectAudio] else []
      | none => []),
    recActs, ?_, ?_, ?_, ?_, ?_, ?_, ?_, ?_, hacts⟩
  · unfold processQueue processLoop
    simp only [hq, hh, hinv, pyGet, bind, Except.bind, pure, Except.pure,
      reduceIte, reduceCtorEq]
    rcases ha : s.audioTransport with _ | a
    · simp only [ha, hinv] at hcr
      simp [hcr]
    · simp only [ha, hinv] at hcr
      rcases hact : a.isActive with _ | _ <;> simp [hcr, hact]
  · exact hf.1
  · exact hf.2.1
  · exact hf.2.2.1
  · exact hf.2.2.2.1
  · exact hf.2.2.2.2.1
  · exact hf.2.2.2.2.2
  · rcases ha : s.audioTransport with _ | a
    · simp
    · rcases hact : a.isActive with _ | _ <;> simp

/-- C6: from ESTABLISHED with `on_hold_by_local` false, `hold()` then
`unhold()` (the dialog's active local SDP having been renegotiated to `d2` in
between) restores `on_hold_by_local = false`, emits exactly the pair
`SCSessionGotHoldRequest{local}` then `SCSessionGotUnholdRequest{local}`, each
call issues exactly one re-INVITE, and each `_make_next_sdp` result has its
version incremented by exactly 1 over the then-active local SDP. -/
theorem claim6_hold_unhold_roundtrip (s : SessionState) (d d2 : DialogModel) (env : MediaEnv)
    (hstate : s.state = "ESTABLISHED") (hhold : s.onHoldByLocal = false)
    (hqueue : s.queue = []) (hinv : s.inv = some d) :
    ∃ s1 pre1 post1 s2 pre2 post2,
      hold s env = Except.ok (s1,
        pre1 ++ [Action.setOfferedLocalSdp
            (makeNextSdp d.activeLocalSdp s.audioTransport s.audioSdpIndex env true true),
          Action.sendReinvite] ++ post1,
        [Notification.gotHoldRequest "local"])
      ∧ s1.onHoldByLocal = true
      ∧ unhold { s1 with inv := some d2 } env = Except.ok (s2,
          pre2 ++ [Action.setOfferedLocalSdp
              (makeNextSdp d2.activeLocalSdp s.audioTransport s.audioSdpIndex env true false),
            Action.sendReinvite] ++ post2,
          [Notification.gotUnholdRequest "local"])
      ∧ s2.onHoldByLocal = false
      ∧ (∀ x ∈ pre1 ++ post1 ++ pre2 ++ post2,
          x ≠ Action.sendReinvite ∧ ∀ sdp, x ≠ Action.setOfferedLocalSdp sdp)
      ∧ (makeNextSdp d.activeLocalSdp s.audioTransport s.audioSdpIndex env true true).version
          = d.activeLocalSdp.version + 1
      ∧ (makeNextSdp d2.activeLocalSdp s.audioTransport s.audioSdpIndex env true false).version
          = d2.activeLocalSdp.version + 1 := by
  obtain ⟨s1, pre1, post1, hrun1, hph1, hps1, hpq1, hpi1, hpt1, hpx1, hpre1, hpost1⟩ :=
    processQueue_hold_spec { s with queue := s.queue ++ ["hold"] } d env
      (by rw [hqueue]; rfl) hhold hinv
  have hhold1 : hold s env = processQueue { s with queue := s.queue ++ ["hold"] } env := by
    unfold hold
    rw [if_neg (by rw [hstate]; simp), if_pos (by rw [hqueue]; rfl)]
  obtain ⟨s2, pre2, post2, hrun2, hph2, hps2, hpq2, hpi2, hpt2, hpx2, hpre2, hpost2⟩ :=
    processQueue_unhold_spec { s1 with inv := some d2, queue := s1.queue ++ ["unhold"] } d2 env
      (by rw [hpq1]; rfl) hph1 rfl
  have hhold2 : unhold { s1 with inv := some d2 } env
      = processQueue { s1 with inv := some d2, queue := s1.queue ++ ["unhold"] } env := by
    unfold unhold
    rw [if_neg (by simp [hps1, hstate]), if_pos (by rw [hpq1]; rfl)]
  refine ⟨s1, pre1, post1, s2, pre2, post2, ?_, hph1, ?_, hph2, ?_,
    makeNextSdp_version _ _ _ _ _ _, makeNextSdp_version _ _ _ _ _ _⟩
  · rw [hhold1, hrun1]
  · rw [hhold2, hrun2]
    simp [hpt1, hpx1]
  · intro x hx
    simp only [List.mem_append] at hx
    rcases hx with ((hx | hx) | hx) | hx
    · rw [hpre1 x hx]
      exact ⟨by simp, by simp⟩
    · rcases hpost1 x hx with h | h | h <;> rw [h] <;> exact ⟨by simp, by simp⟩
    · rw [hpre2 x hx]
      exact ⟨by simp, by simp⟩
    · rcases hpost2 x hx with h | h | h <;> rw [h] <;> exact ⟨by simp, by simp⟩

/-- C6 witness: the concrete ESTABLISHED session with an active audio
transport, the dialog's active local SDP renegotiated to version 8 in
between. -/
theorem claim6_witness :
    ∃ s1 pre1 post1 s2 pre2 post2,
      hold estAudioSession env0 = Except.ok (s1,
        pre1 ++ [Action.setOfferedLocalSdp
            (makeNextSdp baseDialog.activeLocalSdp estAudioSession.audioTransport
              estAudioSession.audioSdpIndex env0 true true),
          Action.sendReinvite] ++ post1,
        [Notification.gotHoldRequest "local"])
      ∧ s1.onHoldByLocal = true
      ∧ unhold { s1 with inv := some confirmedDialog2 } env0 = Except.ok (s2,
          pre2 ++ [Action.setOfferedLocalSdp
              (makeNextSdp confirmedDialog2.activeLocalSdp estAudioSession.audioTransport
                estAudioSession.audioSdpIndex env0 true false),
            Action.sendReinvite] ++ post2,
          [Notification.gotUnholdRequest "local"])
      ∧ s2.onHoldByLocal = false
      ∧ (makeNextSdp baseDialog.activeLocalSdp estAudioSession.audioTransport
          estAudioSession.audioSdpIndex env0 true true).version
          = baseDialog.activeLocalSdp.version + 1
      ∧ (makeNextSdp confirmedDialog2.activeLocalSdp estAudioSession.audioTransport
          estAudioSession.audioSdpIndex env0 true false).version
          = confirmedDialog2.activeLocalSdp.version + 1 := by
  obtain ⟨s1, pre1, post1, s2, pre2, post2, h1, h2, h3, h4, _, h6, h7⟩ :=
    claim6_hold_unhold_roundtrip estAudioSession baseDialog confirmedDialog2 env0 rfl rfl rfl rfl
  exact ⟨s1, pre1, post1, s2, pre2, post2, h1, h2, h3, h4, h6, h7⟩

/-- Under the session's maintained resource invariants (a no-audio timer or a
recorder exists only while the audio transport exists and is active —
enforced by `_update_audio` when arming the timer and by
`start_recording_audio`'s guard), `_stop_media` leaves all three resources
cleared. -/
theorem stopMedia_clears (s : SessionState)
    (hTimer : s.noAudioTimer.isSome → ∃ a, s.audioTransport = some a ∧ a.isActive = true)
    (hRec : s.audioRec.isSome → ∃ a, s.audioTransport = some a ∧ a.isActive = true) :
    (stopMedia s).1.audioTransport = none ∧ (stopMedia s).1.noAudioTimer = none
    ∧ (stopMedia s).1.audioRec = none := by
  unfold stopMedia stopAudio
  rcases ha : s.audioTransport with _ | a
  · have ht : s.noAudioTimer = none := by
      cases hx : s.noAudioTimer with
      | none => rfl
      | some t =>
        obtain ⟨a, ha2, _⟩ := hTimer (by rw [hx]; rfl)
        rw [ha] at ha2
        cases ha2
    have hr : s.audioRec = none := by
      cases hx : s.audioRec with
      | none => rfl
      | some rec =>
        obtain ⟨a, ha2, _⟩ := hRec (by rw [hx]; rfl)
        rw [ha] at ha2
        cases ha2
    simp [ha, ht, hr]
  · rcases hact : a.isActive with _ | _
    · have ht : s.noAudioTimer = none := by
        cases hx : s.noAudioTimer with
        | none => rfl
        | some t =>
          obtain ⟨b, hb, hbact⟩ := hTimer (by rw [hx]; rfl)
          rw [ha] at hb
          cases hb
          rw [hbact] at hact
          cases hact
      have hr : s.audioRec = none := by
        cases hx : s.audioRec with
        | none => rfl
        | some rec =>
          obtain ⟨b, hb, hbact⟩ := hRec (by rw [hx]; rfl)
          rw [ha] at hb
          cases hb
          rw [hbact] at hact
          cases hact
      simp [hact, ht, hr]
    · rcases ht : s.noAudioTimer with _ | t <;>
        rcases hr : s.audioRec with _ | rec <;>
          simp [hact, ht, hr]

/-- `disconnectedBookkeeping` preserves the state and all media resources. -/
theorem disconnectedBookkeeping_fields (s : SessionState) (data : DisconnectData) :
    (disconnectedBookkeeping s data).audioTransport = s.audioTransport
    ∧ (disconnectedBookkeeping s data).noAudioTimer = s.noAudioTimer
    ∧ (disconnectedBookkeeping s data).audioRec = s.audioRec
    ∧ (disconnectedBookkeeping s data).state = s.state := by
  unfold disconnectedBookkeeping
  rcases hh : data.headers with _ | h
  · split_ifs <;> simp
  · rcases hst : s.startTimeSet with _ | _ <;>
      rcases h1 : s.remoteUserAgent with _ | ua <;>
        rcases h2 : h.server with _ | sv <;>
          simp [hst, h1, h2]

/-- C9: both transitions into TERMINATED — `_do_fail` (the local failure path)
and the DISCONNECTED dialog handler — leave the session holding no resources:
`audio_transport`, `_no_audio_timer` and `_audio_rec` are all `None`.  The
hypotheses are the code's maintained invariants that a timer or recorder only
exists while the audio transport is present and active. -/
theorem claim9_terminated_resources (s : SessionState) (reason : String)
    (data : DisconnectData)
    (hTimer : s.noAudioTimer.isSome → ∃ a, s.audioTransport = some a ∧ a.isActive = true)
    (hRec : s.audioRec.isSome → ∃ a, s.audioTransport = some a ∧ a.isActive = true) :
    ((doFail s reason).1.audioTransport = none ∧ (doFail s reason).1.noAudioTimer = none
      ∧ (doFail s reason).1.audioRec = none ∧ (doFail s reason).1.state = "TERMINATED")
    ∧ (∀ s1 acts n, handleDisconnected s data = Except.ok (s1, acts, n) →
        s1.audioTransport = none ∧ s1.noAudioTimer = none ∧ s1.audioRec = none
        ∧ s1.state = "TERMINATED") := by
  constructor
  · rcases hsm : stopMedia s with ⟨sc, a1, n1⟩
    have hclear := stopMedia_clears s hTimer hRec
    rw [hsm] at hclear
    rcases hcs : changeState { sc with inv := none } "TERMINATED" with ⟨se, a2, n2⟩
    have hcf := changeState_fields { sc with inv := none } "TERMINATED"
    rw [hcs] at hcf
    have hrun : doFail s reason = (se, a1 ++ a2,
        n1 ++ n2 ++ [Notification.didFail "local" 0 (some reason),
          Notification.didEnd "local"]) := by
      unfold doFail
      rw [hsm]
      simp only
      rw [hcs]
    rw [hrun]
    refine ⟨?_, ?_, ?_, hcf.1⟩
    · rw [hcf.2.2.1]
      exact hclear.1
    · rw [hcf.2.2.2.1]
      exact hclear.2.1
    · rw [hcf.2.2.2.2.1]
      exact hclear.2.2
  · intro s1 acts n hok
    have hbk := disconnectedBookkeeping_fields s data
    have hTimer2 : (disconnectedBookkeeping s data).noAudioTimer.isSome →
        ∃ a, (disconnectedBookkeeping s data).audioTransport = some a ∧ a.isActive = true := by
      rw [hbk.2.1, hbk.1]
      exact hTimer
    have hRec2 : (disconnectedBookkeeping s data).audioRec.isSome →
        ∃ a, (disconnectedBookkeeping s data).audioTransport = some a ∧ a.isActive = true := by
      rw [hbk.2.2.1, hbk.1]
      exact hRec
    rcases hsm : stopMedia (disconnectedBookkeeping s data) with ⟨sc, a1, n1⟩
    have hclear := stopMedia_clears (disconnectedBookkeeping s data) hTimer2 hRec2
    rw [hsm] at hclear
    rcases hcs : changeState { sc with inv := none } "TERMINATED" with ⟨se, a2, n2⟩
    have hcf := changeState_fields { sc with inv := none } "TERMINATED"
    rw [hcs] at hcf
    unfold handleDisconnected at hok
    simp only [hsm, hcs, bind, Except.bind] at hok
    rcases hfn : failNotifs s.state se.sdpnegFailureReason data
        (if data.prev_state = "DISCONNECTING" then "local" else "remote") with e | nf
    · rw [hfn] at hok
      cases hok
    · rw [hfn] at hok
      simp only [pure, Except.pure, Except.ok.injEq, Prod.mk.injEq] at hok
      obtain ⟨hse, _, _⟩ := hok
      subst hse
      refine ⟨?_, ?_, ?_, hcf.1⟩
      · rw [hcf.2.2.1]
        exact hclear.1
      · rw [hcf.2.2.2.1]
        exact hclear.2.1
      · rw [hcf.2.2.2.2.1]
        exact hclear.2.2

/-- C9 witness: a concrete established session holding all three resources
(active transport, armed timer, active recorder), failed locally and
disconnected remotely; the disconnect handler's concrete output state is
resource-free. -/
theorem claim9_witness :
    ((doFail fullResourceSession "network error").1.audioTransport = none
      ∧ (doFail fullResourceSession "network error").1.noAudioTimer = none
      ∧ (doFail fullResourceSession "network error").1.audioRec = none
      ∧ (doFail fullResourceSession "network error").1.state = "TERMINATED")
    ∧ (estSessionAfterBye.audioTransport = none ∧ estSessionAfterBye.noAudioTimer = none
      ∧ estSessionAfterBye.audioRec = none ∧ estSessionAfterBye.state = "TERMINATED") :=
  ⟨(claim9_terminated_resources fullResourceSession "network error" byeData
      (fun _ => ⟨activeAudioTransport, rfl, rfl⟩)
      (fun _ => ⟨activeAudioTransport, rfl, rfl⟩)).1,
   (claim9_terminated_resources fullResourceSession "network error" byeData
      (fun _ => ⟨activeAudioTransport, rfl, rfl⟩)
      (fun _ => ⟨activeAudioTransport, rfl, rfl⟩)).2
     estSessionAfterBye
     [Action.engineDisconnectAudio, Action.audioTransportStop, Action.timerCancel]
     [Notification.stoppedRecordingAudio "call.wav",
      Notification.changedState "ESTABLISHED" "TERMINATED", Notification.didEnd "remote"]
     rfl⟩

theorem pySet_length {α : Type} (l : List α) (i : Int) (x : α) :
    (pySet l i x).length = l.length := by
  unfold pySet
  split_ifs <;> simp

theorem pySet_get_ofNat {α : Type} (l : List α) (k : Nat) (x : α) (hk : k < l.length) :
    (pySet l (Int.ofNat k) x)[k]? = some x := by
  unfold pySet
  split_ifs with h
  · have h1 : (Int.ofNat k).toNat = k := rfl
    rw [h1]
    exact List.getElem?_set_eq_of_lt x hk
  · exact absurd (Int.ofNat_nonneg k) h

theorem pySet_get_ne_ofNat {α : Type} (l : List α) (j : Int) (k : Nat) (x : α)
    (hj : 0 ≤ j) (hne : j ≠ Int.ofNat k) :
    (pySet l j x)[k]? = l[k]? := by
  unfold pySet
  rw [if_pos hj]
  apply List.getElem?_set_ne
  intro h
  apply hne
  rw [← Int.toNat_of_nonneg hj, h]
  rfl

theorem rejectStep_length (rm : List SDPMedia) (m0 : List (Option SDPMedia)) (j : Int) :
    (rejectStep rm m0 j).length = m0.length := by
  unfold rejectStep
  rcases hg : pyGetElem rm j with _ | v <;> simp [pySet_length]

theorem rejectFold_length (rm : List SDPMedia) (todo : List Int)
    (m0 : List (Option SDPMedia)) :
    (todo.foldl (rejectStep rm) m0).length = m0.length := by
  induction todo generalizing m0 with
  | nil => rfl
  | cons j t ih => rw [List.foldl_cons, ih, rejectStep_length]

theorem rejectFold_get_not_mem (rm : List SDPMedia) (todo : List Int)
    (m0 : List (Option SDPMedia)) (k : Nat)
    (hk : Int.ofNat k ∉ todo) (hnn : ∀ j ∈ todo, 0 ≤ j) :
    (todo.foldl (rejectStep rm) m0)[k]? = m0[k]? := by
  induction todo generalizing m0 with
  | nil => rfl
  | cons j t ih =>
    rw [List.foldl_cons, ih _ (fun h => hk (List.mem_cons_of_mem _ h))
      (fun x hx => hnn x (List.mem_cons_of_mem _ hx))]
    unfold rejectStep
    rcases hg : pyGetElem rm j with _ | v
    · rfl
    · exact pySet_get_ne_ofNat m0 j k _ (hnn j (List.mem_cons_self j t))
        (fun h => hk (h ▸ List.mem_cons_self j t))

theorem rejectFold_get_mem (rm : List SDPMedia) (todo : List Int)
    (m0 : List (Option SDPMedia)) (k : Nat)
    (hmem : Int.ofNat k ∈ todo) (hnodup : todo.Nodup) (hnn : ∀ j ∈ todo, 0 ≤ j)
    (hlen : k < m0.length) (hkrm : k < rm.length) :
    (todo.foldl (rejectStep rm) m0)[k]?
      = (rm[k]?).map (fun x => some (mkRejectedMedia x)) := by
  induction todo generalizing m0 with
  | nil => cases hmem
  | cons j t ih =>
    rw [List.foldl_cons]
    by_cases hjk : j = Int.ofNat k
    · subst hjk
      have hnot : Int.ofNat k ∉ t := (List.nodup_cons.mp hnodup).1
      rw [rejectFold_get_not_mem rm t _ k hnot
        (fun x hx => hnn x (List.mem_cons_of_mem _ hx))]
      unfold rejectStep pyGetElem
      split_ifs with h
      · have h1 : (Int.ofNat k).toNat = k := rfl
        rw [h1]
        rcases hg : rm[k]? with _ | v
        · rw [List.getElem?_eq_none_iff] at hg
          omega
        · simp only [hg, Option.map_some']
          exact pySet_get_ofNat m0 k _ hlen
      · exact absurd (Int.ofNat_nonneg k) h
    · have hmem2 : Int.ofNat k ∈ t := by
        rcases List.mem_cons.mp hmem with h | h
        · exact absurd h.symm hjk
        · exact h
      have hlen2 : k < (rejectStep rm m0 j).length := by
        rw [rejectStep_length]
        exact hlen
      exact ih (rejectStep rm m0 j) hmem2 (List.nodup_cons.mp hnodup).2
        (fun x hx => hnn x (List.mem_cons_of_mem _ hx)) hlen2


/-- C7: for an inbound accept with audio, the answer SDP built by
`_accept_continue` copies the remote start/stop timestamps, has a media list of
the same length as the remote offer, fills the matched audio index from
`get_local_media(is_offer=False)`, and fills every other index with a rejected
mirror of the corresponding remote line (same type, transport, formats and
attributes, port 0). -/
theorem claim7_accept_answer (s : SessionState) (d : DialogModel) (env : MediaEnv) (k : Nat)
    (hstate : s.state = "ACCEPTING") (hinv : s.inv = some d)
    (hidx : s.audioSdpIndex = Int.ofNat k) (hk : k < d.offeredRemoteSdp.media.length) :
    ∃ s1 ans,
      acceptContinue s true env = Except.ok (s1,
        [Action.setOfferedLocalAnswer ans, Action.acceptInvite], [])
      ∧ ans.start_time = d.offeredRemoteSdp.start_time
      ∧ ans.stop_time = d.offeredRemoteSdp.stop_time
      ∧ ans.media.length = d.offeredRemoteSdp.media.length
      ∧ ans.media[k]? = some (some (env.glm false none))
      ∧ ∀ j, j < d.offeredRemoteSdp.media.length → j ≠ k →
          ans.media[j]? = (d.offeredRemoteSdp.media[j]?).map
            (fun rm => some (mkRejectedMedia rm)) := by
  have hinj : Function.Injective Int.ofNat := fun a b h => by injection h
  set rm := d.offeredRemoteSdp.media with hrm
  set n := rm.length with hn
  set media1 := pySet (List.replicate n (none : Option SDPMedia)) (Int.ofNat k)
    (some (env.glm false none)) with hm1
  set todo := ((List.range n).map Int.ofNat).erase (Int.ofNat k) with htodo
  have hndR : ((List.range n).map Int.ofNat).Nodup := (List.nodup_range n).map hinj
  have hnd : todo.Nodup := hndR.erase _
  have hnn : ∀ j ∈ todo, 0 ≤ j := by
    intro j hj
    have hj2 := List.mem_of_mem_erase hj
    obtain ⟨m, _, rfl⟩ := List.mem_map.mp hj2
    exact Int.ofNat_nonneg m
  have hm1len : media1.length = n := by
    rw [hm1, pySet_length, List.length_replicate]
  refine ⟨{ s with audioTransport := some env.newTransport },
    { address := s.rtpLocalAddress, connection := some s.rtpLocalAddress,
      start_time := d.offeredRemoteSdp.start_time, stop_time := d.offeredRemoteSdp.stop_time,
      media := todo.foldl (rejectStep rm) media1 }, ?_, rfl, rfl, ?_, ?_, ?_⟩
  · simp [acceptContinue, hstate, hinv, hidx, pyGet, bind, Except.bind, pure, Except.pure,
      hm1, htodo, hn, hrm]
  · rw [rejectFold_length, hm1len]
  · have hknotmem : Int.ofNat k ∉ todo := hndR.not_mem_erase
    rw [rejectFold_get_not_mem rm todo media1 k hknotmem hnn, hm1]
    exact pySet_get_ofNat _ _ _ (by rw [List.length_replicate]; exact hk)
  · intro j hj hjk
    have hmem : Int.ofNat j ∈ todo := by
      rw [htodo]
      rw [List.mem_erase_of_ne (fun h => hjk (hinj h))]
      exact List.mem_map.mpr ⟨j, List.mem_range.mpr hj, rfl⟩
    exact rejectFold_get_mem rm todo media1 j hmem hnd hnn (by rw [hm1len]; exact hj) hj



/-- C7 witness: the answer construction on the concrete two-line offer. -/
theorem claim7_witness :
    ∃ s1 ans,
      acceptContinue acceptingSession true env0 = Except.ok (s1,
        [Action.setOfferedLocalAnswer ans, Action.acceptInvite], [])
      ∧ ans.start_time = acceptDialog.offeredRemoteSdp.start_time
      ∧ ans.stop_time = acceptDialog.offeredRemoteSdp.stop_time
      ∧ ans.media.length = acceptDialog.offeredRemoteSdp.media.length
      ∧ ans.media[1]? = some (some (env0.glm false none))
      ∧ ans.media[0]? = (acceptDialog.offeredRemoteSdp.media[0]?).map
          (fun rm => some (mkRejectedMedia rm)) := by
  obtain ⟨s1, ans, h1, h2, h3, h4, h5, h6⟩ :=
    claim7_accept_answer acceptingSession acceptDialog env0 1 rfl rfl rfl (by decide)
  exact ⟨s1, ans, h1, h2, h3, h4, h5, h6 0 (by decide) (by decide)⟩

theorem stepInit_observed_empty (st : InitializerState) (h : st.observed = [])
    (e : InitEvent) : stepInit st e = st := by
  cases e <;> simp [stepInit, h]

theorem runInit_observed_empty (st : InitializerState) (h : st.observed = [])
    (evs : List InitEvent) : runInit st evs = st := by
  induction evs with
  | nil => rfl
  | cons e t ih =>
    unfold runInit at *
    rw [List.foldl_cons, stepInit_observed_empty st h e]
    exact ih

theorem stepInit_st0_not_for (a : Nat) (e : InitEvent) (h : ¬ eventForRtp e a) :
    stepInit (mkInitializer a none) e = mkInitializer a none := by
  cases e with
  | rtpDidInitialize t =>
    have hta : t ≠ a := fun hta => h (Or.inl (by rw [hta]))
    simp [stepInit, mkInitializer, hta]
  | rtpDidFail t r =>
    have hta : t ≠ a := fun hta => h (Or.inr ⟨r, by rw [hta]⟩)
    simp [stepInit, mkInitializer, hta]
  | msrpDidInitialize t => simp [stepInit, mkInitializer]
  | msrpDidFail t r => simp [stepInit, mkInitializer]

theorem stepInit_st0_for (a : Nat) (e : InitEvent) (h : eventForRtp e a) :
    initDone (stepInit (mkInitializer a none) e) := by
  rcases h with h | ⟨r, h⟩ <;> subst h
  · simp [stepInit, mkInitializer, removeObserver, checkDone, initDone]
  · simp [stepInit, mkInitializer, failInit, failRemoveLoop, removeObserver, initDone]

theorem runInit_st0_cases (a : Nat) (evs : List InitEvent) :
    (runInit (mkInitializer a none) evs = mkInitializer a none ∧ ∀ e ∈ evs, ¬ eventForRtp e a)
    ∨ (initDone (runInit (mkInitializer a none) evs) ∧ ∃ e ∈ evs, eventForRtp e a) := by
  induction evs with
  | nil => exact Or.inl ⟨rfl, by simp⟩
  | cons e t ih =>
    by_cases he : eventForRtp e a
    · right
      have hdone := stepInit_st0_for a e he
      have hrun : runInit (mkInitializer a none) (e :: t)
          = stepInit (mkInitializer a none) e := by
        unfold runInit
        rw [List.foldl_cons]
        exact runInit_observed_empty _ hdone.2.1 t
      rw [hrun]
      exact ⟨hdone, ⟨e, by simp, he⟩⟩
    · have hstep := stepInit_st0_not_for a e he
      have hrun : runInit (mkInitializer a none) (e :: t)
          = runInit (mkInitializer a none) t := by
        unfold runInit
        rw [List.foldl_cons, hstep]
      rw [hrun]
      rcases ih with ⟨h1, h2⟩ | ⟨h1, h2⟩
      · refine Or.inl ⟨h1, fun x hx => ?_⟩
        rcases List.mem_cons.mp hx with hx | hx
        · exact hx ▸ he
        · exact h2 x hx
      · obtain ⟨x, hx, hxe⟩ := h2
        exact Or.inr ⟨h1, ⟨x, List.mem_cons_of_mem _ hx, hxe⟩⟩

/-- C2: for every `MediaTransportInitializer` as constructed by this module
(audio RTP transport, no MSRP chat), at most one continuation invocation ever
happens; as soon as any `DidInitialize`/`DidFail` event for the transport is
delivered, exactly one has happened; and after a run that invoked a
continuation, delivering any further events changes nothing and invokes no
further continuation. -/
theorem claim2_initializer_exactly_once (a : Nat) (evs : List InitEvent) :
    (runInit (mkInitializer a none) evs).fired.length ≤ 1
    ∧ ((∃ e ∈ evs, eventForRtp e a) → (runInit (mkInitializer a none) evs).fired.length = 1)
    ∧ (∀ pre post, (runInit (mkInitializer a none) pre).fired ≠ [] →
        runInit (mkInitializer a none) (pre ++ post) = runInit (mkInitializer a none) pre) := by
  refine ⟨?_, ?_, ?_⟩
  · rcases runInit_st0_cases a evs with ⟨h1, _⟩ | ⟨h1, _⟩
    · rw [h1]
      simp [mkInitializer]
    · rw [h1.2.2]
  · intro hex
    rcases runInit_st0_cases a evs with ⟨_, h2⟩ | ⟨h1, _⟩
    · obtain ⟨e, he, hfe⟩ := hex
      exact absurd hfe (h2 e he)
    · exact h1.2.2
  · intro pre post hne
    rcases runInit_st0_cases a pre with ⟨h1, _⟩ | ⟨h1, _⟩
    · rw [h1] at hne
      exact absurd rfl hne
    · have hsplit : runInit (mkInitializer a none) (pre ++ post)
          = runInit (runInit (mkInitializer a none) pre) post := by
        unfold runInit
        rw [List.foldl_append]
      rw [hsplit, runInit_observed_empty _ h1.2.1 post]

/-- C2 witness: a concrete successful initialization followed by a late
duplicate event, and a concrete failure run. -/
theorem claim2_witness :
    (runInit (mkInitializer 0 none) [InitEvent.rtpDidInitialize 0]).fired.length = 1
    ∧ runInit (mkInitializer 0 none)
        ([InitEvent.rtpDidFail 0 "x"] ++ [InitEvent.rtpDidInitialize 0])
        = runInit (mkInitializer 0 none) [InitEvent.rtpDidFail 0 "x"] :=
  ⟨(claim2_initializer_exactly_once 0 [InitEvent.rtpDidInitialize 0]).2.1
      ⟨InitEvent.rtpDidInitialize 0, by simp, Or.inl rfl⟩,
   (claim2_initializer_exactly_once 0 [InitEvent.rtpDidFail 0 "x"]).2.2
      [InitEvent.rtpDidFail 0 "x"] [InitEvent.rtpDidInitialize 0] (by decide)⟩

end SipSession
